import Mathlib

/-!
Verification of the Universal POS cart and inventory engine
(`admin-deployment/pos-system.js`, class `UniversalPOS`).

The JavaScript class is shallowly embedded: the mutable fields
`cart`, `inventory`, `products`, the order log and the configuration
options become a `POSState` record, and every method becomes a pure
function from a state (plus the method arguments) to a result, a new
state and the list of emitted domain events.  JavaScript numbers are
modelled by `Rat` (prices, tax, totals) and `Int` (quantities,
inventory counts); the value `NaN` that JavaScript arithmetic can
produce on a missing inventory key is modelled by `Option Int` with
`none` playing the role of NaN, so that the truthiness test
`this.inventory[p] || 0` and the membership test `p in this.inventory`
both keep their exact semantics.  DOM-only side effects
(`showNotification`, the display updates, `localStorage`) do not touch
the modelled state and are omitted; event emission is modelled by the
returned event list.
-/

namespace OmniPOS

/-- One product parsed from a `[data-pos-product]` element
(`parseProductElement`, pos-system.js lines 100-131). -/
structure Element where
  /-- `getAttribute('data-pos-product')`; `none` models a falsy result
  (attribute absent or empty string). -/
  posProduct : Option String
  /-- `getAttribute('data-pos-name')`; `none` models a falsy result. -/
  nameAttr : Option String
  /-- `element.textContent.trim()`. -/
  textTrim : String
  /-- `getAttribute('data-pos-price')` fed through `parseFloat`:
  outer `none` models a falsy attribute, inner `none` a NaN parse. -/
  priceAttr : Option (Option Rat)
  /-- `getAttribute('data-pos-inventory')` fed through `parseInt`:
  outer `none` models a falsy attribute, inner `none` a NaN parse. -/
  inventoryAttr : Option (Option Int)
  /-- `getAttribute('data-pos-category')`; `none` models a falsy result. -/
  categoryAttr : Option String
  /-- `getAttribute('data-pos-description')`; `none` models a falsy result. -/
  descriptionAttr : Option String
  /-- `getAttribute('data-pos-image')`; `none` models a falsy result. -/
  imageAttr : Option String
  /-- `getAttribute('data-pos-sku')`; `none` models a falsy result. -/
  skuAttr : Option String
deriving Repr, DecidableEq

/-- The record built by `parseProductElement` (pos-system.js lines 116-126).
The `element` back-reference is kept so that two scans of the same
document produce literally identical product records. -/
structure Product where
  id : String
  name : String
  price : Rat
  /-- `parseInt(element.getAttribute('data-pos-inventory') || '999')`;
  `none` models NaN (a non-numeric attribute is not rejected). -/
  inventory : Option Int
  category : String
  description : String
  image : String
  sku : String
  element : Element
deriving Repr, DecidableEq

/-- `parseProductElement` (pos-system.js lines 100-131): an element with a
falsy identifier or a NaN price is rejected (`return null`); every other
field falls back to its default. -/
def parseProductElement (el : Element) : Option Product :=
  match el.posProduct with
  | none => none
  | some id =>
    match el.priceAttr.getD (some 0) with
    | none => none
    | some pr =>
      some { id := id
             name := el.nameAttr.getD
               (if el.textTrim = "" then "Product " ++ id else el.textTrim)
             price := pr
             inventory := el.inventoryAttr.getD (some 999)
             category := el.categoryAttr.getD "general"
             description := el.descriptionAttr.getD ""
             image := el.imageAttr.getD ""
             sku := el.skuAttr.getD id
             element := el }

/-- The `this.inventory` object: an insertion-ordered map from product id
to a JavaScript number, where `none` models NaN. -/
abbrev Inventory := List (String × Option Int)

/-- Key lookup in the inventory object: `some v` when the key is present
(with `v = none` modelling a NaN entry), `none` when it is absent. -/
def invLookup : Inventory → String → Option (Option Int)
  | [], _ => none
  | e :: rest, p => if e.1 == p then some e.2 else invLookup rest p

/-- JavaScript `this.inventory[p] || 0`: absent keys and NaN entries are
falsy and give `0`. -/
def invOr0 (inv : Inventory) (p : String) : Int :=
  ((invLookup inv p).join).getD 0

/-- JavaScript `this.inventory[p] = v`: overwrite in place, or append a
new key (object property insertion order). -/
def invSet (inv : Inventory) (p : String) (v : Option Int) : Inventory :=
  match inv with
  | [] => [(p, v)]
  | e :: rest => if e.1 == p then (p, v) :: rest else e :: invSet rest p v

/-- JavaScript `this.inventory[p] -= q`: a numeric entry is decremented,
a NaN entry stays NaN, and an absent key becomes NaN
(`undefined - q` is NaN and the assignment creates the key). -/
def invSub (inv : Inventory) (p : String) (q : Int) : Inventory :=
  invSet inv p (match (invLookup inv p).join with
                | some v => some (v - q)
                | none => none)

/-- `initializeInventory` (pos-system.js lines 136-140): the ledger entry
is written only when the key is absent (`product.id in this.inventory`). -/
def initInventoryEntry (inv : Inventory) (product : Product) : Inventory :=
  if (invLookup inv product.id).isSome then inv
  else invSet inv product.id product.inventory

/-- One cart entry as pushed by `addToCart` (pos-system.js lines 259-266). -/
@[ext]
structure LineItem where
  id : String
  name : String
  price : Rat
  quantity : Int
  sku : String
  image : String
deriving Repr, DecidableEq

/-- The record returned by `calculateTotals` (pos-system.js lines 355-361). -/
structure Totals where
  subtotal : Rat
  tax : Rat
  shipping : Rat
  total : Rat
  itemCount : Int
deriving Repr, DecidableEq

/-- The configuration options the cart engine reads (`this.options`). -/
structure Options where
  taxRate : Rat
  shippingCost : Rat
  apiEndpoint : Option String
deriving Repr, DecidableEq

/-- One order record appended by `completeCheckout` (the checkout data
snapshot; the wall-clock timestamp and id are not modelled). -/
structure Order where
  cart : List LineItem
  totals : Totals
deriving Repr, DecidableEq

/-- The mutable state of a `UniversalPOS` instance. -/
@[ext]
structure POSState where
  cart : List LineItem
  inventory : Inventory
  products : List Product
  orders : List Order
  options : Options
deriving Repr, DecidableEq

/-- The domain events dispatched through `emit` (prefixed `pos:` in the
source), restricted to the payload components the claims mention. -/
inductive Event where
  | itemAdded (productId : String) (quantity : Int) (cart : List LineItem)
  | itemRemoved (productId : String) (quantity : Int) (cart : List LineItem)
  | cartCleared
  | checkoutStarted (cart : List LineItem) (totals : Totals)
  | checkoutCompleted
  | apiSuccess
  | apiError
  | productsScanned (products : List Product)
deriving Repr, DecidableEq

/-- Split a list at its first element satisfying `pr`.  This packages the
`Array.prototype.find` / `findIndex` / `splice` idiom of the source: the
returned middle element is the object `find` hands back, and rebuilding
`pre ++ ... :: post` is the in-place mutation or `splice(i, 1)`. -/
def splitFirst (pr : LineItem → Bool) : List LineItem →
    Option (List LineItem × LineItem × List LineItem)
  | [] => none
  | x :: xs =>
    if pr x then some ([], x, xs)
    else (splitFirst pr xs).map (fun r => (x :: r.1, r.2.1, r.2.2))

/-- `addToCart` (pos-system.js lines 236-280).  Returns the JavaScript
return value, the state after the call and the emitted events. -/
def addToCart (s : POSState) (productId : String) (quantity : Int) :
    Bool × POSState × List Event :=
  match s.products.find? (fun p => p.id == productId) with
  | none => (false, s, [])
  | some product =>
    let availableStock := invOr0 s.inventory productId
    if availableStock < quantity then (false, s, [])
    else
      match splitFirst (fun item => item.id == productId) s.cart with
      | some r =>
        let totalQuantity := r.2.1.quantity + quantity
        if availableStock < totalQuantity then (false, s, [])
        else
          let cart' := r.1 ++ { r.2.1 with quantity := totalQuantity } :: r.2.2
          (true, { s with cart := cart',
                          inventory := invSub s.inventory productId quantity },
           [Event.itemAdded productId quantity cart'])
      | none =>
        let cart' := s.cart ++ [{ id := productId, name := product.name,
                                  price := product.price, quantity := quantity,
                                  sku := product.sku, image := product.image }]
        (true, { s with cart := cart',
                        inventory := invSub s.inventory productId quantity },
         [Event.itemAdded productId quantity cart'])

/-- `removeFromCart` (pos-system.js lines 285-308).  The `quantity`
argument is `Option Int`, `none` modelling the JavaScript default
`null`; `some 0` is falsy exactly like `null` in the two tests
`quantity || cartItem.quantity` and `if (quantity && ...)`. -/
def removeFromCart (s : POSState) (productId : String) (quantity : Option Int) :
    Bool × POSState × List Event :=
  match splitFirst (fun item => item.id == productId) s.cart with
  | none => (false, s, [])
  | some r =>
    let cartItem := r.2.1
    let removeQuantity : Int :=
      match quantity with
      | some q => if q = 0 then cartItem.quantity else q
      | none => cartItem.quantity
    let inv' := invSet s.inventory productId
      (some (invOr0 s.inventory productId + removeQuantity))
    let cart' :=
      match quantity with
      | some q =>
        if q ≠ 0 ∧ cartItem.quantity > q then
          r.1 ++ { cartItem with quantity := cartItem.quantity - q } :: r.2.2
        else r.1 ++ r.2.2
      | none => r.1 ++ r.2.2
    (true, { s with cart := cart', inventory := inv' },
     [Event.itemRemoved productId removeQuantity cart'])

/-- `clearCart` (pos-system.js lines 313-326). -/
def clearCart (s : POSState) : POSState × List Event :=
  let inv' := s.cart.foldl
    (fun inv item => invSet inv item.id (some (invOr0 inv item.id + item.quantity)))
    s.inventory
  ({ s with cart := [], inventory := inv' }, [Event.cartCleared])

/-- `setInventory` (pos-system.js lines 695-700). -/
def setInventory (s : POSState) (productId : String) (quantity : Int) : POSState :=
  { s with inventory := invSet s.inventory productId (some quantity) }

/-- `Math.round(x * 100) / 100` as used by `calculateTotals`:
`Math.round` rounds half up (toward positive infinity),
i.e. `Math.round(y) = floor(y + 1/2)`. -/
def round2 (x : Rat) : Rat := ((⌊x * 100 + 1/2⌋ : Int) : Rat) / 100

/-- `calculateTotals` (pos-system.js lines 349-362). -/
def calculateTotals (s : POSState) : Totals :=
  let subtotal := s.cart.foldl (fun sum item => sum + item.price * (item.quantity : Rat)) 0
  let tax := subtotal * s.options.taxRate
  let shipping := s.options.shippingCost
  let total := subtotal + tax + shipping
  { subtotal := round2 subtotal
    tax := round2 tax
    shipping := round2 shipping
    total := round2 total
    itemCount := s.cart.foldl (fun sum item => sum + item.quantity) 0 }

/-- The body of the `forEach` loop of `scanProducts` (pos-system.js lines
85-92): parse the element, and on success push the product and
initialize its ledger entry; `enhanceProductElement` only touches the
DOM. -/
def scanStep (st : POSState) (el : Element) : POSState :=
  match parseProductElement el with
  | some product =>
    { st with products := st.products ++ [product],
              inventory := initInventoryEntry st.inventory product }
  | none => st

/-- `scanProducts` (pos-system.js lines 81-95): the product list is
rebuilt from scratch (`this.products = []`), then every element of the
document (the list of `[data-pos-product]` elements in order) is
processed by `scanStep`. -/
def scanProducts (s : POSState) (doc : List Element) : POSState × List Event :=
  let s' := doc.foldl scanStep { s with products := [] }
  (s', [Event.productsScanned s'.products])

/-- The outcome of the `fetch` call inside `submitToAPI`: a network
error (rejected promise) or an HTTP response with its `ok` flag. -/
inductive FetchOutcome where
  | networkError
  | response (ok : Bool)
deriving Repr, DecidableEq

/-- `completeCheckout` (pos-system.js lines 576-589): append the order,
then `clearCart`. -/
def completeCheckout (s : POSState) (checkoutCart : List LineItem)
    (checkoutTotals : Totals) : POSState × List Event :=
  let s1 := { s with orders := s.orders ++ [{ cart := checkoutCart, totals := checkoutTotals }] }
  let r := clearCart s1
  (r.1, r.2 ++ [Event.checkoutCompleted])

/-- `submitToAPI` (pos-system.js lines 594-616): a non-ok status throws
into the catch block; the catch block only notifies and emits
`pos:api-error`, leaving the state untouched. -/
def submitToAPI (s : POSState) (checkoutCart : List LineItem)
    (checkoutTotals : Totals) (fetch : FetchOutcome) : POSState × List Event :=
  match fetch with
  | .response true =>
    let r := completeCheckout s checkoutCart checkoutTotals
    (r.1, Event.apiSuccess :: r.2)
  | .response false => (s, [Event.apiError])
  | .networkError => (s, [Event.apiError])

/-- `startCheckout` (pos-system.js lines 528-550).  The `Bool` result
records whether the call got past the empty-cart guard; `confirmAnswer`
models the `confirm` dialog of the local path and `fetch` the network
outcome of the remote path. -/
def startCheckout (s : POSState) (fetch : FetchOutcome) (confirmAnswer : Bool) :
    Bool × POSState × List Event :=
  if s.cart.isEmpty then (false, s, [])
  else
    let totals := calculateTotals s
    let ev0 := [Event.checkoutStarted s.cart totals]
    match s.options.apiEndpoint with
    | some _ =>
      let r := submitToAPI s s.cart totals fetch
      (true, r.1, ev0 ++ r.2)
    | none =>
      if confirmAnswer then
        let r := completeCheckout s s.cart totals
        (true, r.1, ev0 ++ r.2)
      else (true, s, ev0)

/-- Total quantity held in the cart for product `p` (summed over all
line items carrying that id). -/
def cartQty (cart : List LineItem) (p : String) : Int :=
  (cart.map (fun item => if item.id = p then item.quantity else 0)).sum

/-- A `[data-pos-product]` element declaring product "mug-1", price 10.00,
stock 5 (the scenario product of the specification). -/
def mugElement : Element :=
  { posProduct := some "mug-1"
    nameAttr := some "Mug"
    textTrim := "Mug"
    priceAttr := some (some 10)
    inventoryAttr := some (some 5)
    categoryAttr := none
    descriptionAttr := none
    imageAttr := none
    skuAttr := none }

/-- A freshly constructed engine before scanning: empty cart, empty
ledger, no products, no orders, default configuration (tax 0,
shipping 0, no API endpoint). -/
def freshState : POSState :=
  { cart := [], inventory := [], products := [], orders := [],
    options := { taxRate := 0, shippingCost := 0, apiEndpoint := none } }

/-- The post-scan state of the "mug-1" scenario: one product, ledger
entry 5, empty cart. -/
def mugScanned : POSState := (scanProducts freshState [mugElement]).1

/-! ### Helper lemmas about `splitFirst` and the inventory object -/

theorem splitFirst_eq_some {pr : LineItem → Bool} {l pre post : List LineItem}
    {x : LineItem} (h : splitFirst pr l = some (pre, x, post)) :
    l = pre ++ x :: post ∧ pr x = true ∧ ∀ y ∈ pre, pr y = false := by
  induction l generalizing pre with
  | nil => simp [splitFirst] at h
  | cons a as ih =>
    by_cases ha : pr a
    · rw [splitFirst, if_pos ha] at h
      obtain ⟨h1, h2, h3⟩ : [] = pre ∧ a = x ∧ as = post := by simpa using h
      subst h1; subst h2; subst h3
      simp [ha]
    · rw [splitFirst, if_neg ha] at h
      rw [Option.map_eq_some'] at h
      obtain ⟨⟨pre', x', post'⟩, hsp, heq⟩ := h
      obtain ⟨h1, h2, h3⟩ : a :: pre' = pre ∧ x' = x ∧ post' = post := by simpa using heq
      subst h1; subst h2; subst h3
      obtain ⟨e1, e2, e3⟩ := ih hsp
      refine ⟨by simp [e1], e2, ?_⟩
      intro y hy
      rcases List.mem_cons.mp hy with rfl | hy
      · simpa using ha
      · exact e3 y hy

theorem splitFirst_eq_none {pr : LineItem → Bool} {l : List LineItem}
    (h : splitFirst pr l = none) : ∀ y ∈ l, pr y = false := by
  induction l with
  | nil => simp
  | cons a as ih =>
    by_cases ha : pr a
    · simp [splitFirst, ha] at h
    · simp only [splitFirst, if_neg ha, Option.map_eq_none'] at h
      intro y hy
      rcases List.mem_cons.mp hy with rfl | hy
      · simpa using ha
      · exact ih h y hy

theorem splitFirst_none_of {pr : LineItem → Bool} {l : List LineItem}
    (h : ∀ y ∈ l, pr y = false) : splitFirst pr l = none := by
  induction l with
  | nil => rfl
  | cons a as ih =>
    have ha : pr a = false := h a (by simp)
    rw [splitFirst, if_neg (by simp [ha]), Option.map_eq_none']
    exact ih (fun y hy => h y (by simp [hy]))

theorem splitFirst_middle {pr : LineItem → Bool} {pre post : List LineItem} {x : LineItem}
    (hpre : ∀ y ∈ pre, pr y = false) (hx : pr x = true) :
    splitFirst pr (pre ++ x :: post) = some (pre, x, post) := by
  induction pre with
  | nil => simp [splitFirst, hx]
  | cons a as ih =>
    have ha : pr a = false := hpre a (by simp)
    have ih' := ih (fun y hy => hpre y (by simp [hy]))
    simp [splitFirst, ha, ih']

theorem invLookup_invSet_self (inv : Inventory) (p : String) (v : Option Int) :
    invLookup (invSet inv p v) p = some v := by
  induction inv with
  | nil => simp [invSet, invLookup]
  | cons e rest ih =>
    by_cases he : e.1 = p
    · simp [invSet, invLookup, he]
    · simp [invSet, invLookup, he, ih]

theorem invLookup_invSet_ne (inv : Inventory) {p q : String} (h : p ≠ q) (v : Option Int) :
    invLookup (invSet inv q v) p = invLookup inv p := by
  have h' : ¬ (q = p) := fun hh => h hh.symm
  induction inv with
  | nil => simp [invSet, invLookup, h']
  | cons e rest ih =>
    by_cases he : e.1 = q
    · simp [invSet, invLookup, he, h']
    · by_cases hep : e.1 = p
      · simp [invSet, invLookup, he, hep, h, h']
      · simp [invSet, invLookup, he, hep, ih]

theorem invSet_lookup_self (inv : Inventory) {p : String} {v : Option Int}
    (h : invLookup inv p = some v) : invSet inv p v = inv := by
  induction inv with
  | nil => simp [invLookup] at h
  | cons e rest ih =>
    by_cases he : e.1 = p
    · rw [invLookup, if_pos (by simp [he])] at h
      obtain rfl : e.2 = v := by simpa using h
      rw [invSet, if_pos (by simp [he])]
      rw [← he]
    · rw [invLookup, if_neg (by simp [he])] at h
      rw [invSet, if_neg (by simp [he]), ih h]

theorem invSet_invSet_self (inv : Inventory) (p : String) (v w : Option Int) :
    invSet (invSet inv p v) p w = invSet inv p w := by
  induction inv with
  | nil => simp [invSet]
  | cons e rest ih =>
    by_cases he : e.1 = p
    · simp [invSet, he]
    · simp [invSet, he, ih]

theorem cartQty_append (l₁ l₂ : List LineItem) (p : String) :
    cartQty (l₁ ++ l₂) p = cartQty l₁ p + cartQty l₂ p := by
  simp [cartQty]

/-- Restoring what `invSub` subtracted brings the inventory object back,
entry order included. -/
theorem invSub_restore (inv : Inventory) (p : String) (v n : Int)
    (h : invLookup inv p = some (some v)) :
    invSet (invSub inv p n) p (some (invOr0 (invSub inv p n) p + n)) = inv := by
  have h1 : invSub inv p n = invSet inv p (some (v - n)) := by
    simp [invSub, h]
  rw [h1]
  have h2 : invOr0 (invSet inv p (some (v - n))) p = v - n := by
    simp [invOr0, invLookup_invSet_self]
  rw [h2, invSet_invSet_self]
  have h3 : v - n + n = v := by ring
  rw [h3]
  exact invSet_lookup_self inv h

/-! ### Evaluation lemmas: the explicit result of each branch of
`addToCart` and `removeFromCart` -/

theorem addToCart_eval_new (s : POSState) (p : String) (q : Int) (product : Product)
    (h1 : s.products.find? (fun pr => pr.id == p) = some product)
    (h2 : ¬ invOr0 s.inventory p < q)
    (h3 : splitFirst (fun item => item.id == p) s.cart = none) :
    addToCart s p q =
      (true,
       { s with cart := s.cart ++ [{ id := p, name := product.name, price := product.price,
                                     quantity := q, sku := product.sku, image := product.image }],
                inventory := invSub s.inventory p q },
       [Event.itemAdded p q (s.cart ++ [{ id := p, name := product.name, price := product.price,
                                          quantity := q, sku := product.sku,
                                          image := product.image }])]) := by
  simp [addToCart, h1, h2, h3]

theorem addToCart_eval_existing (s : POSState) (p : String) (q : Int) (product : Product)
    (pre post : List LineItem) (item : LineItem)
    (h1 : s.products.find? (fun pr => pr.id == p) = some product)
    (h2 : ¬ invOr0 s.inventory p < q)
    (h3 : splitFirst (fun it => it.id == p) s.cart = some (pre, item, post))
    (h4 : ¬ invOr0 s.inventory p < item.quantity + q) :
    addToCart s p q =
      (true,
       { s with cart := pre ++ { item with quantity := item.quantity + q } :: post,
                inventory := invSub s.inventory p q },
       [Event.itemAdded p q (pre ++ { item with quantity := item.quantity + q } :: post)]) := by
  simp [addToCart, h1, h2, h3, h4]

theorem removeFromCart_eval_full (s : POSState) (p : String) (n : Int)
    (pre post : List LineItem) (item : LineItem)
    (hsp : splitFirst (fun it => it.id == p) s.cart = some (pre, item, post))
    (hn0 : n ≠ 0) (hle : ¬ item.quantity > n) :
    removeFromCart s p (some n) =
      (true,
       { s with cart := pre ++ post,
                inventory := invSet s.inventory p (some (invOr0 s.inventory p + n)) },
       [Event.itemRemoved p n (pre ++ post)]) := by
  simp [removeFromCart, hsp, hn0, hle]

theorem removeFromCart_eval_decrement (s : POSState) (p : String) (n : Int)
    (pre post : List LineItem) (item : LineItem)
    (hsp : splitFirst (fun it => it.id == p) s.cart = some (pre, item, post))
    (hn0 : n ≠ 0) (hgt : item.quantity > n) :
    removeFromCart s p (some n) =
      (true,
       { s with cart := pre ++ { item with quantity := item.quantity - n } :: post,
                inventory := invSet s.inventory p (some (invOr0 s.inventory p + n)) },
       [Event.itemRemoved p n (pre ++ { item with quantity := item.quantity - n } :: post)]) := by
  simp [removeFromCart, hsp, hn0, hgt]

/-! ### Concrete states used by the scenario evaluations -/

/-- The product record `parseProductElement` yields for `mugElement`. -/
def mugProduct : Product :=
  { id := "mug-1", name := "Mug", price := 10, inventory := some 5, category := "general",
    description := "", image := "", sku := "mug-1", element := mugElement }

/-- The state after `addToCart("mug-1", 3)` from the post-scan state:
the cart holds one line item of quantity 3 and the ledger entry is 2. -/
def mugAdded : POSState := (addToCart mugScanned "mug-1" 3).2.1

/-- The state after the over-large removal `removeFromCart("mug-1", 10)`
from `mugAdded`. -/
def mugOverRemoved : POSState := (removeFromCart mugAdded "mug-1" (some 10)).2.1

/-- The state after `addToCart("mug-1", 2)` from the post-scan state. -/
def mugAdd2 : POSState := (addToCart mugScanned "mug-1" 2).2.1

/-! ### The claims -/

/-- **C1.** The claimed closed-system stock invariant does not survive the
code's `removeFromCart`: starting from the post-scan state (declared
stock 5, empty cart), the sequence `addToCart("mug-1", 3)`,
`removeFromCart("mug-1", 10)` leaves `inventory["mug-1"] = 12` with an
empty cart, so `inventory[p] + cart quantity for p = 12 ≠ 5`.  The
source credits the full requested quantity back to the ledger
(pos-system.js line 293) before the cap at the held quantity is ever
consulted. -/
theorem stockInvariant_violated_eval :
    invLookup mugScanned.inventory "mug-1" = some (some 5) ∧
    mugScanned.cart = [] ∧
    (addToCart mugScanned "mug-1" 3).1 = true ∧
    (removeFromCart mugAdded "mug-1" (some 10)).1 = true ∧
    invLookup mugOverRemoved.inventory "mug-1" = some (some 12) ∧
    cartQty mugOverRemoved.cart "mug-1" = 0 ∧
    (12 : Int) + 0 ≠ 5 := by decide

/-- **C2.** With a line item of quantity 3 and ledger entry 2,
`removeFromCart("mug-1", 10)` removes the line item but increments the
ledger by the requested 10 (2 becomes 12), not by the held 3, and the
emitted item-removed event carries quantity 10.  This contradicts the
claimed behaviour (release exactly the quantity actually held). -/
theorem removeFromCart_overRelease_eval :
    cartQty mugAdded.cart "mug-1" = 3 ∧
    invOr0 mugAdded.inventory "mug-1" = 2 ∧
    (removeFromCart mugAdded "mug-1" (some 10)).1 = true ∧
    mugOverRemoved.cart = [] ∧
    invOr0 mugOverRemoved.inventory "mug-1" = 12 ∧
    (removeFromCart mugAdded "mug-1" (some 10)).2.2
      = [Event.itemRemoved "mug-1" 10 []] := by decide

/-- **C4 (amended).** `setInventory` stores the given quantity verbatim:
after `setInventory(p, q)` the ledger entry for `p` is exactly `q`,
with no clamping, so a negative argument produces a negative entry. -/
theorem setInventory_stores_verbatim (s : POSState) (p : String) (q : Int) :
    invLookup (setInventory s p q).inventory p = some (some q) := by
  simp [setInventory, invLookup_invSet_self]

/-- **C4 (counterexample).** `setInventory("mug-1", -5)` leaves the
ledger entry at `-5`, which is not `≥ 0`: the claimed clamp does not
exist in the code. -/
theorem setInventory_negative_counterexample :
    invLookup (setInventory freshState "mug-1" (-5)).inventory "mug-1" = some (some (-5)) ∧
    ¬ (0 : Int) ≤ -5 := by decide

/-- **C5.** Every failing `addToCart` call — unknown product or
insufficient stock on either the fresh-item or the top-up check — is a
complete no-op: it returns `false` (a value, not an exception; the
embedded function is total), leaves the state exactly unchanged and
emits no event. -/
theorem addToCart_failure_atomic (s : POSState) (p : String) (q : Int)
    (h : (addToCart s p q).1 = false) :
    addToCart s p q = (false, s, []) := by
  rcases h1 : s.products.find? (fun pr => pr.id == p) with _ | product
  · simp [addToCart, h1]
  · by_cases h2 : invOr0 s.inventory p < q
    · simp [addToCart, h1, h2]
    · rcases h3 : splitFirst (fun item => item.id == p) s.cart with _ | ⟨pre, item, post⟩
      · rw [addToCart_eval_new s p q product h1 h2 h3] at h
        simp at h
      · by_cases h4 : invOr0 s.inventory p < item.quantity + q
        · simp [addToCart, h1, h2, h3, h4]
        · rw [addToCart_eval_existing s p q product pre post item h1 h2 h3 h4] at h
          simp at h

/-- **C5 (witness).** `addToCart("mug-1", 9)` on the post-scan state
(stock 5) fails and is a no-op. -/
theorem addToCart_failure_atomic_witness :
    addToCart mugScanned "mug-1" 9 = (false, mugScanned, []) :=
  addToCart_failure_atomic mugScanned "mug-1" 9 (by decide)

/-- **C3 (amended).** For a known product, `addToCart(p, q)` fails with
insufficient stock exactly when the requested quantity exceeds the
available ledger quantity, or — when a line item for `p` already exists —
when the existing line-item quantity plus the requested quantity exceeds
the available ledger quantity.  The top-up path performs a second check
against the combined total (pos-system.js lines 252-255), contrary to the
claim that only the requested quantity is checked. -/
theorem addToCart_fails_iff (s : POSState) (pid : String) (q : Int) (product : Product)
    (hp : s.products.find? (fun pr => pr.id == pid) = some product) :
    (addToCart s pid q).1 = false ↔
      (invOr0 s.inventory pid < q ∨
        ∃ pre item post,
          splitFirst (fun it => it.id == pid) s.cart = some (pre, item, post) ∧
          invOr0 s.inventory pid < item.quantity + q) := by
  by_cases h2 : invOr0 s.inventory pid < q
  · simp [addToCart, hp, h2]
  · rcases h3 : splitFirst (fun it => it.id == pid) s.cart with _ | ⟨pre, item, post⟩
    · rw [addToCart_eval_new s pid q product hp h2 h3]
      simp [h2, h3]
    · by_cases h4 : invOr0 s.inventory pid < item.quantity + q
      · constructor
        · intro _
          exact Or.inr ⟨pre, item, post, rfl, h4⟩
        · intro _
          simp [addToCart, hp, h2, h3, h4]
      · rw [addToCart_eval_existing s pid q product pre post item hp h2 h3 h4]
        simp [h2, h3, h4]
        omega

/-- **C3 (witness).** Instantiation: on the post-scan state (stock 5,
empty cart), `addToCart("mug-1", 7)` fails because 7 exceeds the
available 5. -/
theorem addToCart_fails_iff_witness :
    (addToCart mugScanned "mug-1" 7).1 = false :=
  (addToCart_fails_iff mugScanned "mug-1" 7 mugProduct (by decide)).mpr
    (Or.inl (by decide))

/-- **C3 (counterexample).** With stock 5, `addToCart("mug-1", 2)`
succeeds (cart quantity 2, ledger 3); a second `addToCart("mug-1", 2)`
then fails even though the requested 2 does not exceed the available 3:
the top-up check is against the combined total 4, refuting the claim
that failure occurs exactly when `q` exceeds the available quantity. -/
theorem addToCart_topUp_counterexample :
    (addToCart mugScanned "mug-1" 2).1 = true ∧
    invOr0 mugAdd2.inventory "mug-1" = 3 ∧
    cartQty mugAdd2.cart "mug-1" = 2 ∧
    (2 : Int) ≤ 3 ∧
    (addToCart mugAdd2 "mug-1" 2).1 = false := by decide

/-- **C6.** Round trip: whenever `addToCart(p, n)` succeeds with a
positive quantity `n` (on a cart whose line items for `p`, if any, have
quantity at least 1, as the data model requires), the immediately
following `removeFromCart(p, n)` reports success and returns the whole
state — cart order, line-item quantities and inventory ledger — exactly
to its pre-add value. -/
theorem addToCart_removeFromCart_roundTrip (s : POSState) (p : String) (n : Int)
    (hn : 1 ≤ n)
    (hwf : ∀ item ∈ s.cart, item.id = p → 1 ≤ item.quantity)
    (hadd : (addToCart s p n).1 = true) :
    (removeFromCart (addToCart s p n).2.1 p (some n)).1 = true ∧
    (removeFromCart (addToCart s p n).2.1 p (some n)).2.1 = s := by
  have hn0 : n ≠ 0 := by omega
  rcases h1 : s.products.find? (fun pr => pr.id == p) with _ | product
  · simp [addToCart, h1] at hadd
  · by_cases h2 : invOr0 s.inventory p < n
    · simp [addToCart, h1, h2] at hadd
    · have hv : ∃ v : Int, invLookup s.inventory p = some (some v) := by
        rcases hl : invLookup s.inventory p with _ | w
        · exfalso
          apply h2
          simp [invOr0, hl]
          omega
        · rcases w with _ | v
          · exfalso
            apply h2
            simp [invOr0, hl]
            omega
          · exact ⟨v, rfl⟩
      obtain ⟨v, hv⟩ := hv
      have havail : invOr0 s.inventory p = v := by simp [invOr0, hv]
      rcases h3 : splitFirst (fun item => item.id == p) s.cart with _ | ⟨pre, item, post⟩
      · -- a brand-new line item was pushed at the end of the cart
        rw [addToCart_eval_new s p n product h1 h2 h3]
        have hsp2 : splitFirst (fun item => item.id == p)
            (s.cart ++ [{ id := p, name := product.name, price := product.price,
                          quantity := n, sku := product.sku, image := product.image }]) =
            some (s.cart,
              { id := p, name := product.name, price := product.price,
                quantity := n, sku := product.sku, image := product.image }, []) :=
          splitFirst_middle (splitFirst_eq_none h3) (by simp)
        rw [removeFromCart_eval_full _ p n _ _ _ hsp2 hn0 (by simp)]
        refine ⟨rfl, ?_⟩
        ext1
        · simp
        · exact invSub_restore s.inventory p v n hv
        · rfl
        · rfl
        · rfl
      · -- an existing line item was topped up in place
        obtain ⟨hcart, hpx, hpre⟩ := splitFirst_eq_some h3
        have hq1 : 1 ≤ item.quantity := by
          refine hwf item ?_ (by simpa using hpx)
          rw [hcart]
          simp
        by_cases h4 : invOr0 s.inventory p < item.quantity + n
        · simp [addToCart, h1, h2, h3, h4] at hadd
        · rw [addToCart_eval_existing s p n product pre post item h1 h2 h3 h4]
          have hsp2 : splitFirst (fun it => it.id == p)
              (pre ++ { item with quantity := item.quantity + n } :: post) =
              some (pre, { item with quantity := item.quantity + n }, post) :=
            splitFirst_middle hpre (by simpa using hpx)
          rw [removeFromCart_eval_decrement _ p n _ _ _ hsp2 hn0 (by simp; omega)]
          refine ⟨rfl, ?_⟩
          have hitem : ({ item with quantity := item.quantity + n - n } : LineItem) = item := by
            have hq : item.quantity + n - n = item.quantity := by ring
            rw [hq]
          ext1
          · simp [hitem, hcart]
          · exact invSub_restore s.inventory p v n hv
          · rfl
          · rfl
          · rfl

/-- **C6 (witness).** Adding 3 mugs to the post-scan state and removing
3 again restores the post-scan state exactly. -/
theorem addToCart_removeFromCart_roundTrip_witness :
    (removeFromCart (addToCart mugScanned "mug-1" 3).2.1 "mug-1" (some 3)).1 = true ∧
    (removeFromCart (addToCart mugScanned "mug-1" 3).2.1 "mug-1" (some 3)).2.1 = mugScanned :=
  addToCart_removeFromCart_roundTrip mugScanned "mug-1" 3 (by decide)
    (by decide) (by decide)

/-! ### Scan lemmas for C7 -/

theorem scanFold_products (doc : List Element) (st : POSState) :
    (doc.foldl scanStep st).products = st.products ++ doc.filterMap parseProductElement := by
  induction doc generalizing st with
  | nil => simp
  | cons el rest ih =>
    rcases hel : parseProductElement el with _ | product
    · simp [scanStep, hel, ih]
    · simp [scanStep, hel, ih]

theorem scanFold_inventory_preserved (doc : List Element) (st : POSState) (p : String)
    (v : Option Int) (h : invLookup st.inventory p = some v) :
    invLookup (doc.foldl scanStep st).inventory p = some v := by
  induction doc generalizing st with
  | nil => simpa using h
  | cons el rest ih =>
    refine ih (scanStep st el) ?_
    rcases hel : parseProductElement el with _ | product
    · simpa [scanStep, hel] using h
    · simp only [scanStep, hel]
      show invLookup (initInventoryEntry st.inventory product) p = some v
      unfold initInventoryEntry
      by_cases hin : (invLookup st.inventory product.id).isSome
      · simpa [hin] using h
      · rw [if_neg hin]
        by_cases hip : product.id = p
        · exact absurd (by rw [hip, h]; rfl) hin
        · rw [invLookup_invSet_ne _ (fun hh => hip hh.symm) _]
          exact h

/-- **C7 (amended).** Scanning is idempotent in the two claimed senses —
a second scan of the unchanged document yields an identical product
list, and a scan never alters a ledger entry that already exists — but
the product list only avoids duplicate identifiers when the document
itself declares each identifier at most once: `scanProducts` appends
every parsed element and performs no replacement by identifier. -/
theorem scanProducts_idempotent (s : POSState) (doc : List Element) :
    ((scanProducts (scanProducts s doc).1 doc).1).products
      = ((scanProducts s doc).1).products ∧
    (∀ p v, invLookup s.inventory p = some v →
      invLookup ((scanProducts s doc).1).inventory p = some v) ∧
    ((((doc.filterMap parseProductElement).map Product.id).Nodup) →
      ((((scanProducts s doc).1).products.map Product.id).Nodup)) := by
  have hprod : ∀ t : POSState,
      ((scanProducts t doc).1).products = doc.filterMap parseProductElement := by
    intro t
    show (doc.foldl scanStep { t with products := [] }).products = _
    rw [scanFold_products]
    simp
  refine ⟨?_, ?_, ?_⟩
  · rw [hprod, hprod]
  · intro p v h
    exact scanFold_inventory_preserved doc _ p v (by simpa using h)
  · intro h
    rw [hprod]
    exact h

/-- **C7 (witness).** Re-scanning the mug document over the already
scanned state leaves the existing ledger entry 5 untouched. -/
theorem scanProducts_idempotent_witness :
    invLookup ((scanProducts mugScanned [mugElement]).1).inventory "mug-1" = some (some 5) :=
  (scanProducts_idempotent mugScanned [mugElement]).2.1 "mug-1" (some 5) (by decide)

/-- An element with the same identifier declared twice in the document. -/
def dupElement : Element :=
  { posProduct := some "dup", nameAttr := some "Dup", textTrim := "Dup",
    priceAttr := some (some 1), inventoryAttr := some (some 3),
    categoryAttr := none, descriptionAttr := none, imageAttr := none, skuAttr := none }

/-- **C7 (counterexample).** A document declaring two elements with the
same product identifier yields a product list with two entries for that
identifier: no replacement by identifier takes place. -/
theorem scanProducts_duplicate_counterexample :
    (((scanProducts freshState [dupElement, dupElement]).1).products.map Product.id)
      = ["dup", "dup"] ∧
    ¬ ((((scanProducts freshState [dupElement, dupElement]).1).products.map Product.id).Nodup) := by
  decide

/-- The C8 scenario: a cart with line items 10.00 × 2 and 5.00 × 1,
tax rate 0.08, shipping 9.99. -/
def c8State : POSState :=
  { cart := [ { id := "a", name := "Item A", price := 10, quantity := 2, sku := "a", image := "" },
              { id := "b", name := "Item B", price := 5, quantity := 1, sku := "b", image := "" } ],
    inventory := [], products := [], orders := [],
    options := { taxRate := 8/100, shippingCost := 999/100, apiEndpoint := none } }

/-- A state with the same cart and the same tax/shipping configuration as
`c8State` but different inventory and endpoint configuration. -/
def c8StateAlt : POSState :=
  { cart := c8State.cart,
    inventory := [("a", some 7)], products := [], orders := [],
    options := { taxRate := 8/100, shippingCost := 999/100, apiEndpoint := some "backend" } }

/-- **C8.** `calculateTotals` depends only on the cart, the configured
tax rate and the configured shipping cost, every monetary figure passing
through the single rounding rule `round2` (JavaScript
`Math.round(100 x)/100`, round half up); on the scenario cart it returns
subtotal 25.00, tax 2.00, shipping 9.99, total 36.99. -/
theorem calculateTotals_pure_and_scenario :
    (∀ s₁ s₂ : POSState, s₁.cart = s₂.cart →
      s₁.options.taxRate = s₂.options.taxRate →
      s₁.options.shippingCost = s₂.options.shippingCost →
      calculateTotals s₁ = calculateTotals s₂) ∧
    calculateTotals c8State =
      { subtotal := 25, tax := 2, shipping := 999/100, total := 3699/100, itemCount := 3 } := by
  constructor
  · intro s₁ s₂ h1 h2 h3
    simp [calculateTotals, h1, h2, h3]
  · have hsub : List.foldl
        (fun sum item => sum + item.price * (item.quantity : Rat)) 0 c8State.cart = 25 := by
      show (0 + 10 * ((2 : Int) : Rat)) + 5 * ((1 : Int) : Rat) = 25
      push_cast
      ring
    have hcount : List.foldl (fun sum item => sum + item.quantity) 0 c8State.cart = 3 := by
      decide
    have hrate : c8State.options.taxRate = 8/100 := rfl
    have hship : c8State.options.shippingCost = 999/100 := rfl
    have e25 : round2 25 = 25 := by
      have h : (⌊(25 : Rat) * 100 + 1/2⌋ : Int) = 2500 := Int.floor_eq_iff.mpr (by norm_num)
      unfold round2
      rw [h]
      norm_num
    have etax : round2 (25 * (8/100)) = 2 := by
      have h : (⌊(25 : Rat) * (8/100) * 100 + 1/2⌋ : Int) = 200 :=
        Int.floor_eq_iff.mpr (by norm_num)
      unfold round2
      rw [h]
      norm_num
    have eship : round2 (999/100) = 999/100 := by
      have h : (⌊(999/100 : Rat) * 100 + 1/2⌋ : Int) = 999 :=
        Int.floor_eq_iff.mpr (by norm_num)
      unfold round2
      rw [h]
      norm_num
    have etot : round2 (25 + 25 * (8/100) + 999/100) = 3699/100 := by
      have h : (⌊((25 : Rat) + 25 * (8/100) + 999/100) * 100 + 1/2⌋ : Int) = 3699 :=
        Int.floor_eq_iff.mpr (by norm_num)
      unfold round2
      rw [h]
      norm_num
    simp only [calculateTotals]
    rw [hsub, hrate, hship, hcount, e25, etax, eship, etot]

/-- **C8 (witness).** Two states agreeing on cart, tax rate and shipping
cost (but differing in inventory and endpoint) produce identical totals. -/
theorem calculateTotals_pure_witness :
    calculateTotals c8State = calculateTotals c8StateAlt :=
  calculateTotals_pure_and_scenario.1 c8State c8StateAlt rfl rfl rfl

/-- **C9.** With an API endpoint configured and a non-empty cart, a
failing remote submission (network error or non-ok HTTP status) leaves
the whole state — cart, inventory ledger, order log — exactly unchanged,
emits the api-error event, records no order and clears nothing, and a
second checkout on the resulting state passes the empty-cart guard
again: the failed checkout is retryable. -/
theorem remoteCheckout_failure_atomic (s : POSState) (fetch : FetchOutcome)
    (confirmAnswer : Bool) (hcart : s.cart ≠ [])
    (hapi : s.options.apiEndpoint ≠ none)
    (hfail : fetch ≠ FetchOutcome.response true) :
    (startCheckout s fetch confirmAnswer).2.1 = s ∧
    Event.apiError ∈ (startCheckout s fetch confirmAnswer).2.2 ∧
    (startCheckout s fetch confirmAnswer).1 = true ∧
    (startCheckout (startCheckout s fetch confirmAnswer).2.1 fetch confirmAnswer).1 = true := by
  have hne : s.cart.isEmpty = false := by
    rcases hc : s.cart with _ | ⟨a, l⟩
    · exact absurd hc hcart
    · rfl
  obtain ⟨ep, hep⟩ : ∃ ep, s.options.apiEndpoint = some ep := by
    rcases he : s.options.apiEndpoint with _ | ep
    · exact absurd he hapi
    · exact ⟨ep, rfl⟩
  have hsub : submitToAPI s s.cart (calculateTotals s) fetch = (s, [Event.apiError]) := by
    rcases fetch with _ | ok
    · rfl
    · cases ok
      · rfl
      · exact absurd rfl hfail
  refine ⟨?_, ?_, ?_, ?_⟩ <;> simp [startCheckout, hne, hep, hsub]

/-- A configured-endpoint variant of `mugAdded` for the C9 witness. -/
def apiState : POSState :=
  { cart := mugAdded.cart, inventory := mugAdded.inventory,
    products := mugAdded.products, orders := [],
    options := { taxRate := 0, shippingCost := 0, apiEndpoint := some "backend" } }

/-- **C9 (witness).** A network failure on `apiState` leaves it
unchanged, emits api-error and keeps checkout retryable. -/
theorem remoteCheckout_failure_atomic_witness :
    (startCheckout apiState FetchOutcome.networkError true).2.1 = apiState ∧
    Event.apiError ∈ (startCheckout apiState FetchOutcome.networkError true).2.2 ∧
    (startCheckout apiState FetchOutcome.networkError true).1 = true ∧
    (startCheckout (startCheckout apiState FetchOutcome.networkError true).2.1
      FetchOutcome.networkError true).1 = true :=
  remoteCheckout_failure_atomic apiState FetchOutcome.networkError true
    (by decide) (by decide) (by decide)

/-- **C10 (amended).** `addToCart` indeed never validates positivity: for
a known product with a numeric non-negative ledger entry and any
quantity `q ≤ 0`, a call on a cart holding no line item for that product
succeeds, appends a line item whose quantity is the non-positive `q`,
and raises the ledger entry by `-q`.  A top-up call with `q ≤ 0` can
still fail, because the combined-total check compares the existing
quantity plus `q` against the available stock (see the counterexample). -/
theorem addToCart_nonpositive_fresh (s : POSState) (pid : String) (q : Int)
    (product : Product)
    (hp : s.products.find? (fun pr => pr.id == pid) = some product)
    (v : Int) (hv : invLookup s.inventory pid = some (some v)) (hv0 : 0 ≤ v)
    (hq : q ≤ 0)
    (hfresh : ∀ item ∈ s.cart, ¬ item.id = pid) :
    (addToCart s pid q).1 = true ∧
    (addToCart s pid q).2.1.cart
      = s.cart ++ [{ id := pid, name := product.name, price := product.price,
                     quantity := q, sku := product.sku, image := product.image }] ∧
    invLookup (addToCart s pid q).2.1.inventory pid = some (some (v - q)) := by
  have havail : invOr0 s.inventory pid = v := by simp [invOr0, hv]
  have h2 : ¬ invOr0 s.inventory pid < q := by
    rw [havail]
    omega
  have h3 : splitFirst (fun item => item.id == pid) s.cart = none :=
    splitFirst_none_of (fun y hy => by simpa using hfresh y hy)
  rw [addToCart_eval_new s pid q product hp h2 h3]
  refine ⟨rfl, rfl, ?_⟩
  show invLookup (invSub s.inventory pid q) pid = some (some (v - q))
  simp [invSub, hv, invLookup_invSet_self]

/-- **C10 (witness).** On the post-scan state (entry 5, empty cart),
`addToCart("mug-1", -2)` succeeds, creates a line item of quantity −2
and raises the ledger from 5 to 7. -/
theorem addToCart_nonpositive_fresh_witness :
    (addToCart mugScanned "mug-1" (-2)).1 = true ∧
    (addToCart mugScanned "mug-1" (-2)).2.1.cart
      = mugScanned.cart ++
          [{ id := "mug-1", name := mugProduct.name, price := mugProduct.price,
             quantity := -2, sku := mugProduct.sku, image := mugProduct.image }] ∧
    invLookup (addToCart mugScanned "mug-1" (-2)).2.1.inventory "mug-1"
      = some (some (5 - (-2))) :=
  addToCart_nonpositive_fresh mugScanned "mug-1" (-2) mugProduct (by decide) 5
    (by decide) (by decide) (by decide) (by decide)

/-- A state for the C10 counterexample: the product is known, its ledger
entry is the non-negative 0, and the cart already holds a line item of
quantity 5 for it. -/
def c10State : POSState :=
  { cart := [{ id := "mug-1", name := "Mug", price := 10, quantity := 5,
               sku := "mug-1", image := "" }],
    inventory := [("mug-1", some 0)],
    products := mugScanned.products, orders := [],
    options := { taxRate := 0, shippingCost := 0, apiEndpoint := none } }

/-- **C10 (counterexample).** In `c10State` the product is known and the
ledger entry is `0 ≥ 0`, yet `addToCart("mug-1", -1)` returns failure:
the top-up branch compares the combined total `5 + (-1) = 4` against the
available `0`.  The claim that every `q ≤ 0` call succeeds is false. -/
theorem addToCart_nonpositive_counterexample :
    (c10State.products.find? (fun pr => pr.id == "mug-1")).isSome = true ∧
    invLookup c10State.inventory "mug-1" = some (some 0) ∧
    (addToCart c10State "mug-1" (-1)).1 = false ∧
    (addToCart c10State "mug-1" (-1)).2.1 = c10State := by decide

end OmniPOS
